import Mathlib

/-!
Shallow embedding of `src/ros/src/twist_controller/dbw_node.py` (class `DBWNode`)
from the CarND-Capstone repository, together with theorems settling the
specification claims about it.

Modelling conventions:
* Python `float` scalars flow through `dbw_node.py` opaquely (they are only
  stored, compared to `None`, and passed along), so they are embedded as `ℚ`.
* `None` sentinels become `Option`.
* The mutable fields of the `DBWNode` object that the control path touches
  (`__init__` lines 89-100) become the record `DBWState`; the Python field
  `_time_nsecs` is embedded as `time_nsecs`, and the misspelled field
  `current_anuglar_vel` is kept verbatim.
* The external `Controller` collaborator (module `twist_controller`, not part
  of this file's source) is a parameter: a function
  `ℚ → ℚ → ℚ → Bool → ℚ × ℚ × ℚ` (or an `Except`-valued variant when modelling
  a raising call).
* One iteration of the `while not rospy.is_shutdown()` body (minus the
  `rate.sleep()`) becomes `DBWNode.loopTick`, returning the observable trace of
  that tick: the `Controller.control` invocation, if any, followed by the
  published command messages.  `WRITE_CSV_LOG` is `False` in the source, so the
  csv-logging branches are dead code and are not modelled.
* The outbound ROS messages `ThrottleCmd`, `SteeringCmd`, `BrakeCmd` (external
  package `dbw_mkz_msgs`) are embedded structurally; the constants
  `ThrottleCmd.CMD_PERCENT` and `BrakeCmd.CMD_TORQUE` become the two
  constructors of `PedalCmdType`.
-/

/-- A `geometry_msgs/TwistStamped` message as `dbw_node.py` consumes it:
`msg.header.stamp.nsecs`, `msg.twist.linear.x`, `msg.twist.angular.z`. -/
structure TwistStamped where
  stamp_nsecs : Int
  linear_x : ℚ
  angular_z : ℚ
deriving DecidableEq

/-- The pedal command type constants used by `DBWNode.publish`:
`ThrottleCmd.CMD_PERCENT` and `BrakeCmd.CMD_TORQUE`. -/
inductive PedalCmdType
  | percent
  | torque
deriving DecidableEq

/-- `dbw_mkz_msgs/ThrottleCmd` restricted to the fields `publish` sets. -/
structure ThrottleCmd where
  enable : Bool
  pedal_cmd_type : PedalCmdType
  pedal_cmd : ℚ
deriving DecidableEq

/-- `dbw_mkz_msgs/SteeringCmd` restricted to the fields `publish` sets. -/
structure SteeringCmd where
  enable : Bool
  steering_wheel_angle_cmd : ℚ
deriving DecidableEq

/-- `dbw_mkz_msgs/BrakeCmd` restricted to the fields `publish` sets. -/
structure BrakeCmd where
  enable : Bool
  pedal_cmd_type : PedalCmdType
  pedal_cmd : ℚ
deriving DecidableEq

/-- An outbound message dispatched on one of the three command publishers. -/
inductive CmdMsg
  | throttle (c : ThrottleCmd)
  | steer (c : SteeringCmd)
  | brake (c : BrakeCmd)
deriving DecidableEq

/-- The `enable` flag of an outbound command message. -/
def cmdEnabled : CmdMsg → Bool
  | CmdMsg.throttle c => c.enable
  | CmdMsg.steer c => c.enable
  | CmdMsg.brake c => c.enable

/-- The mutable shared state of the `DBWNode` object touched by the callbacks
and the loop (`__init__` lines 89-100). -/
structure DBWState where
  proposed_linear_vel : Option ℚ
  proposed_angular_vel : Option ℚ
  current_linear_vel : Option ℚ
  current_anuglar_vel : Option ℚ
  time_nsecs : Option Int
  dbw_enabled : Bool
deriving DecidableEq

/-- The state set up by `DBWNode.__init__` (lines 89-100): every velocity field
and the timestamp start as the `None` sentinel, `dbw_enabled` starts `False`. -/
def initState : DBWState :=
  { proposed_linear_vel := none
    proposed_angular_vel := none
    current_linear_vel := none
    current_anuglar_vel := none
    time_nsecs := none
    dbw_enabled := false }

/-- `DBWNode.proposed_cb` (lines 176-180): stores the proposal's linear and
angular velocities and the header timestamp. -/
def DBWNode.proposed_cb (s : DBWState) (msg : TwistStamped) : DBWState :=
  { s with
    proposed_linear_vel := some msg.linear_x
    proposed_angular_vel := some msg.angular_z
    time_nsecs := some msg.stamp_nsecs }

/-- `DBWNode.current_cb` (lines 182-185): stores only the current linear
velocity (the angular-velocity and timestamp lines are commented out). -/
def DBWNode.current_cb (s : DBWState) (msg : TwistStamped) : DBWState :=
  { s with current_linear_vel := some msg.linear_x }

/-- `DBWNode.dbw_enabled_cb` (lines 187-188): stores the enable flag. -/
def DBWNode.dbw_enabled_cb (s : DBWState) (data : Bool) : DBWState :=
  { s with dbw_enabled := data }

/-- `DBWNode.publish` (lines 158-174): builds and dispatches, in order, a
throttle command (enable, CMD_PERCENT, the throttle value), a steering command
(enable, the steer value), and a brake command (enable, CMD_TORQUE, the brake
value). -/
def DBWNode.publish (throttle brake steer : ℚ) : List CmdMsg :=
  [ CmdMsg.throttle { enable := true, pedal_cmd_type := PedalCmdType.percent, pedal_cmd := throttle },
    CmdMsg.steer { enable := true, steering_wheel_angle_cmd := steer },
    CmdMsg.brake { enable := true, pedal_cmd_type := PedalCmdType.torque, pedal_cmd := brake } ]

/-- An observable event of one loop iteration: the `Controller.control`
invocation with its arguments, or the dispatch of one outbound command. -/
inductive Event
  | controlCall (proposed_linear proposed_angular current_linear : ℚ) (enabled : Bool)
  | emit (c : CmdMsg)
deriving DecidableEq

/-- The command messages dispatched within a trace of events. -/
def emitted (evs : List Event) : List CmdMsg :=
  evs.filterMap fun e =>
    match e with
    | Event.emit c => some c
    | _ => none

/-- One iteration of the body of `DBWNode.loop` (lines 128-153), with
`WRITE_CSV_LOG = False`: if any of `proposed_linear_vel`,
`proposed_angular_vel`, `current_linear_vel` is `None` the tick does nothing;
otherwise `Controller.control` is called with those three values and
`dbw_enabled`, and the resulting (throttle, brake, steering) triple is
published only when `dbw_enabled` is true. -/
def DBWNode.loopTick (control : ℚ → ℚ → ℚ → Bool → ℚ × ℚ × ℚ)
    (s : DBWState) : List Event :=
  match s.proposed_linear_vel, s.proposed_angular_vel, s.current_linear_vel with
  | some pl, some pa, some cl =>
      let r := control pl pa cl s.dbw_enabled
      Event.controlCall pl pa cl s.dbw_enabled ::
        (if s.dbw_enabled then (DBWNode.publish r.1 r.2.1 r.2.2).map Event.emit else [])
  | _, _, _ => []

/-- Claim C7: at process start, before any update has been received, the
proposal fields and the current-velocity field hold the unset sentinel and the
enable flag is false. -/
theorem C7_init_unset :
    initState.proposed_linear_vel = none ∧
    initState.proposed_angular_vel = none ∧
    initState.current_linear_vel = none ∧
    initState.current_anuglar_vel = none ∧
    initState.time_nsecs = none ∧
    initState.dbw_enabled = false :=
  ⟨rfl, rfl, rfl, rfl, rfl, rfl⟩

/-- Claim C1: on every tick taken while `proposed_linear_vel`,
`proposed_angular_vel`, or `current_linear_vel` is still unset, the loop body
neither invokes `Controller.control` nor emits any command: its event trace is
empty. -/
theorem C1_not_ready_noop (control : ℚ → ℚ → ℚ → Bool → ℚ × ℚ × ℚ)
    (s : DBWState)
    (h : s.proposed_linear_vel = none ∨ s.proposed_angular_vel = none ∨
      s.current_linear_vel = none) :
    DBWNode.loopTick control s = [] := by
  rcases s with ⟨pl, pa, cl, ca, t, en⟩
  simp only [DBWNode.loopTick]
  rcases h with h | h | h <;> simp_all

/-- Witness for C1 at the freshly initialized state. -/
theorem C1_not_ready_noop_witness :
    DBWNode.loopTick (fun _ _ _ _ => (0, 0, 0)) initState = [] :=
  C1_not_ready_noop (fun _ _ _ _ => (0, 0, 0)) initState (Or.inl rfl)

/-- Claim C3: `publish` dispatches exactly three messages — first a throttle
command of type percent carrying the throttle value, then a steering command
carrying the steering value, then a brake command of type torque carrying the
brake value — and each message's enable flag is true; no batching, no retry. -/
theorem C3_publish_three (throttle brake steer : ℚ) :
    DBWNode.publish throttle brake steer =
      [ CmdMsg.throttle ⟨true, PedalCmdType.percent, throttle⟩,
        CmdMsg.steer ⟨true, steer⟩,
        CmdMsg.brake ⟨true, PedalCmdType.torque, brake⟩ ] ∧
    (DBWNode.publish throttle brake steer).length = 3 ∧
    (DBWNode.publish throttle brake steer).all cmdEnabled = true :=
  ⟨rfl, rfl, rfl⟩

/-- Helper: the trace of a tick whose three readiness fields are set. -/
theorem loopTick_eq_of_some (control : ℚ → ℚ → ℚ → Bool → ℚ × ℚ × ℚ)
    (s : DBWState) (pl pa cl : ℚ)
    (h1 : s.proposed_linear_vel = some pl)
    (h2 : s.proposed_angular_vel = some pa)
    (h3 : s.current_linear_vel = some cl) :
    DBWNode.loopTick control s =
      Event.controlCall pl pa cl s.dbw_enabled ::
        (if s.dbw_enabled then
          (DBWNode.publish (control pl pa cl s.dbw_enabled).1
            (control pl pa cl s.dbw_enabled).2.1
            (control pl pa cl s.dbw_enabled).2.2).map Event.emit
        else []) := by
  rcases s with ⟨f1, f2, f3, f4, f5, f6⟩
  simp only at h1 h2 h3
  subst h1; subst h2; subst h3
  rfl

/-- Claim C2: on a tick where the three readiness fields are set,
`Controller.control` is invoked with (proposed_linear, proposed_angular,
current_linear, enabled) regardless of the enable flag, and the resulting
(throttle, brake, steering) triple is handed to `publish` exactly when
`dbw_enabled` is true; when it is false the triple is dropped and nothing is
emitted. -/
theorem C2_control_always_emit_iff_enabled
    (control : ℚ → ℚ → ℚ → Bool → ℚ × ℚ × ℚ)
    (s : DBWState) (pl pa cl : ℚ)
    (h1 : s.proposed_linear_vel = some pl)
    (h2 : s.proposed_angular_vel = some pa)
    (h3 : s.current_linear_vel = some cl) :
    Event.controlCall pl pa cl s.dbw_enabled ∈ DBWNode.loopTick control s ∧
    (s.dbw_enabled = true →
      emitted (DBWNode.loopTick control s) =
        DBWNode.publish (control pl pa cl true).1 (control pl pa cl true).2.1
          (control pl pa cl true).2.2) ∧
    (s.dbw_enabled = false → emitted (DBWNode.loopTick control s) = []) := by
  have h := loopTick_eq_of_some control s pl pa cl h1 h2 h3
  refine ⟨?_, ?_, ?_⟩
  · rw [h]; exact List.mem_cons_self _ _
  · intro hen; rw [h, hen]
    simp [emitted, DBWNode.publish]
  · intro hen; rw [h, hen]
    simp [emitted]

/-- Witness for C2 at a concrete ready, enabled state. -/
theorem C2_control_always_emit_iff_enabled_witness :
    Event.controlCall 5 0 4 true ∈
      DBWNode.loopTick (fun a _ c _ => (a - c, 0, 0))
        { proposed_linear_vel := some 5, proposed_angular_vel := some 0,
          current_linear_vel := some 4, current_anuglar_vel := none,
          time_nsecs := some 7, dbw_enabled := true } ∧
    emitted (DBWNode.loopTick (fun a _ c _ => (a - c, 0, 0))
        { proposed_linear_vel := some 5, proposed_angular_vel := some 0,
          current_linear_vel := some 4, current_anuglar_vel := none,
          time_nsecs := some 7, dbw_enabled := true }) =
      DBWNode.publish 1 0 0 := by
  have h := C2_control_always_emit_iff_enabled (fun a _ c _ => (a - c, 0, 0))
    { proposed_linear_vel := some 5, proposed_angular_vel := some 0,
      current_linear_vel := some 4, current_anuglar_vel := none,
      time_nsecs := some 7, dbw_enabled := true } 5 0 4 rfl rfl rfl
  refine ⟨h.1, ?_⟩
  have h2 := h.2.1 rfl
  rw [h2]
  norm_num

/-- One callback invocation of the node, with its payload. -/
inductive Op
  | proposed (m : TwistStamped)
  | current (m : TwistStamped)
  | enable (b : Bool)
deriving DecidableEq

/-- Dispatch of a callback invocation to its handler. -/
def applyOp (s : DBWState) : Op → DBWState
  | Op.proposed m => DBWNode.proposed_cb s m
  | Op.current m => DBWNode.current_cb s m
  | Op.enable b => DBWNode.dbw_enabled_cb s b

/-- The readiness check of `DBWNode.loop` (lines 128-130): all of
`proposed_linear_vel`, `proposed_angular_vel`, `current_linear_vel` set. -/
def ready (s : DBWState) : Bool :=
  s.proposed_linear_vel.isSome && s.proposed_angular_vel.isSome &&
    s.current_linear_vel.isSome

/-- Claim C8: each update channel is last-value-wins: after any sequence of
updates on one channel ending in `m`, the channel's stored fields equal the
values carried by `m` alone, whatever the starting state and the earlier
updates were. -/
theorem C8_last_value_wins (s : DBWState)
    (ps : List TwistStamped) (p : TwistStamped)
    (cs : List TwistStamped) (c : TwistStamped)
    (bs : List Bool) (b : Bool) :
    (List.foldl DBWNode.proposed_cb s (ps ++ [p])).proposed_linear_vel =
        some p.linear_x ∧
    (List.foldl DBWNode.proposed_cb s (ps ++ [p])).proposed_angular_vel =
        some p.angular_z ∧
    (List.foldl DBWNode.proposed_cb s (ps ++ [p])).time_nsecs =
        some p.stamp_nsecs ∧
    (List.foldl DBWNode.current_cb s (cs ++ [c])).current_linear_vel =
        some c.linear_x ∧
    (List.foldl DBWNode.dbw_enabled_cb s (bs ++ [b])).dbw_enabled = b := by
  simp only [List.foldl_append, List.foldl_cons, List.foldl_nil]
  exact ⟨rfl, rfl, rfl, rfl, rfl⟩

/-- Helper: no single callback invocation can unset a readiness field. -/
theorem ready_applyOp (s : DBWState) (o : Op) (h : ready s = true) :
    ready (applyOp s o) = true := by
  rcases o with m | m | b <;>
    simp_all [ready, applyOp, DBWNode.proposed_cb, DBWNode.current_cb,
      DBWNode.dbw_enabled_cb]

/-- Helper: readiness is preserved by any sequence of callback invocations. -/
theorem ready_foldl_applyOp (s : DBWState) (ops : List Op)
    (h : ready s = true) : ready (List.foldl applyOp s ops) = true := by
  induction ops generalizing s with
  | nil => exact h
  | cons o rest ih => exact ih (applyOp s o) (ready_applyOp s o h)

/-- Claim C9: readiness is monotone: once the three readiness fields are set,
no sequence of callback invocations unsets any of them, and every subsequent
tick passes the readiness check and invokes the Controller. -/
theorem C9_ready_monotone (control : ℚ → ℚ → ℚ → Bool → ℚ × ℚ × ℚ)
    (s : DBWState) (ops : List Op) (h : ready s = true) :
    ready (List.foldl applyOp s ops) = true ∧
    ∃ pl pa cl rest,
      DBWNode.loopTick control (List.foldl applyOp s ops) =
        Event.controlCall pl pa cl
          (List.foldl applyOp s ops).dbw_enabled :: rest := by
  have hr := ready_foldl_applyOp s ops h
  refine ⟨hr, ?_⟩
  simp only [ready, Bool.and_eq_true, Option.isSome_iff_exists] at hr
  obtain ⟨⟨⟨pl, h1⟩, ⟨pa, h2⟩⟩, ⟨cl, h3⟩⟩ := hr
  exact ⟨pl, pa, cl, _, loopTick_eq_of_some control _ pl pa cl h1 h2 h3⟩

/-- Witness for C9: ready state, then one enable callback; still ready. -/
theorem C9_ready_monotone_witness :
    ready { proposed_linear_vel := some 1, proposed_angular_vel := some 2,
            current_linear_vel := some 3, current_anuglar_vel := none,
            time_nsecs := none, dbw_enabled := false } = true ∧
    ready (List.foldl applyOp
      { proposed_linear_vel := some 1, proposed_angular_vel := some 2,
        current_linear_vel := some 3, current_anuglar_vel := none,
        time_nsecs := none, dbw_enabled := false } [Op.enable true]) = true := by
  refine ⟨by decide, ?_⟩
  exact (C9_ready_monotone (fun _ _ _ _ => (0, 0, 0))
    { proposed_linear_vel := some 1, proposed_angular_vel := some 2,
      current_linear_vel := some 3, current_anuglar_vel := none,
      time_nsecs := none, dbw_enabled := false } [Op.enable true] (by decide)).1

/-- Claim C10: each callback writes only its own entity's fields:
`current_cb` changes only `current_linear_vel`, `dbw_enabled_cb` changes only
`dbw_enabled`, and `proposed_cb` changes only `proposed_linear_vel`,
`proposed_angular_vel` and `time_nsecs`. -/
theorem C10_frame_conditions (s : DBWState) (m : TwistStamped) (b : Bool) :
    ((DBWNode.current_cb s m).proposed_linear_vel = s.proposed_linear_vel ∧
     (DBWNode.current_cb s m).proposed_angular_vel = s.proposed_angular_vel ∧
     (DBWNode.current_cb s m).current_anuglar_vel = s.current_anuglar_vel ∧
     (DBWNode.current_cb s m).time_nsecs = s.time_nsecs ∧
     (DBWNode.current_cb s m).dbw_enabled = s.dbw_enabled) ∧
    ((DBWNode.dbw_enabled_cb s b).proposed_linear_vel = s.proposed_linear_vel ∧
     (DBWNode.dbw_enabled_cb s b).proposed_angular_vel = s.proposed_angular_vel ∧
     (DBWNode.dbw_enabled_cb s b).current_linear_vel = s.current_linear_vel ∧
     (DBWNode.dbw_enabled_cb s b).current_anuglar_vel = s.current_anuglar_vel ∧
     (DBWNode.dbw_enabled_cb s b).time_nsecs = s.time_nsecs) ∧
    ((DBWNode.proposed_cb s m).current_linear_vel = s.current_linear_vel ∧
     (DBWNode.proposed_cb s m).current_anuglar_vel = s.current_anuglar_vel ∧
     (DBWNode.proposed_cb s m).dbw_enabled = s.dbw_enabled) :=
  ⟨⟨rfl, rfl, rfl, rfl, rfl⟩, ⟨rfl, rfl, rfl, rfl, rfl⟩, ⟨rfl, rfl, rfl⟩⟩

/-- One iteration of the body of `DBWNode.loop` when the external
`Controller.control` call may raise: the call site
`throttle, brake, steering = self.controller.control(...)` (lines 131-135) has
no surrounding try/except, so a raised exception aborts the iteration before
`publish` and propagates out of the iteration. -/
def DBWNode.loopTickE (control : ℚ → ℚ → ℚ → Bool → Except Unit (ℚ × ℚ × ℚ))
    (s : DBWState) : Except Unit (List Event) :=
  match s.proposed_linear_vel, s.proposed_angular_vel, s.current_linear_vel with
  | some pl, some pa, some cl =>
      match control pl pa cl s.dbw_enabled with
      | Except.error e => Except.error e
      | Except.ok r =>
          Except.ok (Event.controlCall pl pa cl s.dbw_enabled ::
            (if s.dbw_enabled then (DBWNode.publish r.1 r.2.1 r.2.2).map Event.emit
             else []))
  | _, _, _ => Except.ok []

/-- The `while not rospy.is_shutdown()` loop of `DBWNode.loop` run over a
schedule of per-tick state snapshots.  Returns the per-tick event traces and
whether the loop was killed by an uncaught exception: since the loop body has
no exception handler, an exception raised inside a tick propagates out of
`loop`, so no later tick runs. -/
def runLoop (control : ℚ → ℚ → ℚ → Bool → Except Unit (ℚ × ℚ × ℚ)) :
    List DBWState → List (List Event) × Bool
  | [] => ([], false)
  | s :: rest =>
      match DBWNode.loopTickE control s with
      | Except.error _ => ([], true)
      | Except.ok evs =>
          let r := runLoop control rest
          (evs :: r.1, r.2)

/-- A controller stub whose `control` call always raises. -/
def raisingControl : ℚ → ℚ → ℚ → Bool → Except Unit (ℚ × ℚ × ℚ) :=
  fun _ _ _ _ => Except.error ()

/-- A ready state: all three readiness fields set, dbw enabled. -/
def readyState : DBWState :=
  { proposed_linear_vel := some 5
    proposed_angular_vel := some 0
    current_linear_vel := some 4
    current_anuglar_vel := none
    time_nsecs := some 7
    dbw_enabled := true }

/-- Counterexample to claim C4: with a controller whose `control` call raises,
a two-tick schedule produces no event on the first tick but the loop is killed
(the crash flag is set and the second tick is never processed), contradicting
"the scheduler does not crash: the loop proceeds to the next tick" — the call
site has no try/except. -/
theorem C4_counterexample :
    DBWNode.loopTickE raisingControl readyState = Except.error () ∧
    runLoop raisingControl [readyState, readyState] = ([], true) ∧
    (runLoop raisingControl [readyState, readyState]).1.length ≠ 2 := by
  refine ⟨rfl, rfl, ?_⟩
  decide

/-- Claim C4 as amended: if `Controller.control` raises on a tick, no command
(not even a partial triple) is emitted for that tick; but the exception
propagates uncaught, so the loop terminates instead of proceeding to the next
tick: the run produces no further event traces and ends crashed. -/
theorem C4_amended_exception_kills_loop
    (control : ℚ → ℚ → ℚ → Bool → Except Unit (ℚ × ℚ × ℚ))
    (s : DBWState) (rest : List DBWState)
    (h : DBWNode.loopTickE control s = Except.error ()) :
    runLoop control (s :: rest) = ([], true) := by
  simp only [runLoop, h]

/-- Witness for the amended C4 at the raising controller and ready state. -/
theorem C4_amended_exception_kills_loop_witness :
    runLoop raisingControl [readyState, readyState] = ([], true) :=
  C4_amended_exception_kills_loop raisingControl readyState [readyState] rfl

/-- One atomic field assignment.  In CPython each single attribute assignment
(`self.x = v`) is atomic, but a callback made of several assignments can be
interleaved with the loop thread between them; these are the individual
assignments of the three callbacks. -/
inductive FieldWrite
  | wPL (v : ℚ)
  | wPA (v : ℚ)
  | wT (n : Int)
  | wCL (v : ℚ)
  | wEn (b : Bool)
deriving DecidableEq

/-- Apply one atomic field assignment to the shared state. -/
def applyWrite (s : DBWState) : FieldWrite → DBWState
  | FieldWrite.wPL v => { s with proposed_linear_vel := some v }
  | FieldWrite.wPA v => { s with proposed_angular_vel := some v }
  | FieldWrite.wT n => { s with time_nsecs := some n }
  | FieldWrite.wCL v => { s with current_linear_vel := some v }
  | FieldWrite.wEn b => { s with dbw_enabled := b }

/-- Apply a sequence of atomic field assignments in order. -/
def applyWrites (s : DBWState) (l : List FieldWrite) : DBWState :=
  List.foldl applyWrite s l

/-- The assignment sequence `proposed_cb` executes (lines 176-180): the linear
velocity, the angular velocity, and the timestamp are three separate
assignments, not one atomic record write. -/
def proposedWrites (msg : TwistStamped) : List FieldWrite :=
  [FieldWrite.wPL msg.linear_x, FieldWrite.wPA msg.angular_z,
   FieldWrite.wT msg.stamp_nsecs]

/-- `Merge l1 l2 l` holds when `l` is an order-preserving interleaving of the
write sequences `l1` and `l2` of two concurrent callback threads. -/
inductive Merge : List FieldWrite → List FieldWrite → List FieldWrite → Prop
  | nil : Merge [] [] []
  | left (a : FieldWrite) {l1 l2 l : List FieldWrite} :
      Merge l1 l2 l → Merge (a :: l1) l2 (a :: l)
  | right (a : FieldWrite) {l1 l2 l : List FieldWrite} :
      Merge l1 l2 l → Merge l1 (a :: l2) (a :: l)

/-- First proposal message delivered to `proposed_cb`: linear 1, angular 2. -/
def msgA : TwistStamped := ⟨0, 1, 2⟩

/-- Second proposal message delivered to `proposed_cb`: linear 3, angular 4. -/
def msgB : TwistStamped := ⟨0, 3, 4⟩

/-- A reachable write history: all of `msgA`'s callback, then the first
assignment of `msgB`'s callback, at which point the loop thread reads. -/
def tornTrace : List FieldWrite :=
  proposedWrites msgA ++ List.take 1 (proposedWrites msgB)

/-- Counterexample to claim C5: the proposal callback is not an atomic
whole-record update.  `tornTrace` is a legitimate interleaving (an
order-preserving merge of `msgA`'s completed write sequence with a prefix of
`msgB`'s write sequence, i.e. the loop thread reads while `msgB`'s callback is
between its two velocity assignments), and the state it reaches pairs `msgB`'s
linear velocity with `msgA`'s angular velocity — a snapshot matching neither
message as a whole. -/
theorem C5_counterexample :
    Merge (proposedWrites msgA) (List.take 1 (proposedWrites msgB)) tornTrace ∧
    List.take 1 (proposedWrites msgB) = [FieldWrite.wPL msgB.linear_x] ∧
    (applyWrites initState tornTrace).proposed_linear_vel = some msgB.linear_x ∧
    (applyWrites initState tornTrace).proposed_angular_vel = some msgA.angular_z ∧
    ¬ ((applyWrites initState tornTrace).proposed_linear_vel = some msgA.linear_x ∧
       (applyWrites initState tornTrace).proposed_angular_vel = some msgA.angular_z) ∧
    ¬ ((applyWrites initState tornTrace).proposed_linear_vel = some msgB.linear_x ∧
       (applyWrites initState tornTrace).proposed_angular_vel = some msgB.angular_z) := by
  refine ⟨?_, by decide, by decide, by decide, by decide, by decide⟩
  show Merge
    [FieldWrite.wPL 1, FieldWrite.wPA 2, FieldWrite.wT 0] [FieldWrite.wPL 3]
    [FieldWrite.wPL 1, FieldWrite.wPA 2, FieldWrite.wT 0, FieldWrite.wPL 3]
  exact Merge.left _ (Merge.left _ (Merge.left _ (Merge.right _ Merge.nil)))

/-- Claim C5 as amended: each individual field assignment is atomic, and a
snapshot taken when every delivered proposal callback has completed all of its
assignments reflects the last proposal message as a whole; but because
`proposed_cb` writes its fields in separate assignments, a snapshot taken
between them can mix fields of different updates (as the counterexample
shows). -/
theorem C5_amended_completed_callbacks_untorn (s : DBWState) (m : TwistStamped) :
    (applyWrites s (proposedWrites m)).proposed_linear_vel = some m.linear_x ∧
    (applyWrites s (proposedWrites m)).proposed_angular_vel = some m.angular_z ∧
    (applyWrites s (proposedWrites m)).time_nsecs = some m.stamp_nsecs ∧
    applyWrites s (proposedWrites m) = DBWNode.proposed_cb s m :=
  ⟨rfl, rfl, rfl, rfl⟩

/-- The ten `rospy.get_param` configuration options read by `DBWNode.__init__`
(lines 47-59). -/
structure Config where
  vehicle_mass : ℚ
  fuel_capacity : ℚ
  brake_deadband : ℚ
  decel_limit : ℚ
  accel_limit : ℚ
  wheel_radius : ℚ
  wheel_base : ℚ
  steer_ratio : ℚ
  max_lat_accel : ℚ
  max_steer_angle : ℚ
deriving DecidableEq

/-- The documented defaults of the ten options (lines 47-59). -/
def defaultConfig : Config :=
  { vehicle_mass := 1736.35
    fuel_capacity := 13.5
    brake_deadband := 0.1
    decel_limit := -5
    accel_limit := 1
    wheel_radius := 0.2413
    wheel_base := 2.8498
    steer_ratio := 14.8
    max_lat_accel := 3
    max_steer_angle := 8 }

/-- The positional argument list of the `Controller(...)` constructor call in
`DBWNode.__init__` (lines 68-77): vehicle_mass, wheel_radius, accel_limit,
decel_limit, wheel_base, steer_ratio, the literal `0.1`, max_lat_accel,
max_steer_angle. -/
def controllerCtorArgs (c : Config) : List ℚ :=
  [c.vehicle_mass, c.wheel_radius, c.accel_limit, c.decel_limit, c.wheel_base,
   c.steer_ratio, 0.1, c.max_lat_accel, c.max_steer_angle]

/-- Counterexample to claim C6: not all ten options are passed into the
Controller constructor.  With the documented defaults, `fuel_capacity`
(13.5) appears nowhere in the constructor's argument list; it is read and then
dropped (and `brake_deadband` is likewise not passed — the `0.1` in the call is
a hard-coded literal, position 7 of the call, not the parameter). -/
theorem C6_counterexample :
    defaultConfig.fuel_capacity ∉ controllerCtorArgs defaultConfig ∧
    controllerCtorArgs { defaultConfig with brake_deadband := 7 } =
      controllerCtorArgs defaultConfig := by
  refine ⟨?_, rfl⟩
  simp only [controllerCtorArgs, defaultConfig, List.mem_cons, List.not_mem_nil,
    or_false]
  norm_num

/-- Claim C6 as amended: the ten options are read with their documented
defaults, but only eight of them reach the Controller constructor —
vehicle_mass, wheel_radius, accel_limit, decel_limit, wheel_base, steer_ratio,
max_lat_accel, max_steer_angle, together with a hard-coded literal `0.1`;
`fuel_capacity` and `brake_deadband` are read and discarded.  The options are
passed opaquely (the argument list is exactly the field values, uninterpreted)
and the core loop does not take the configuration at all. -/
theorem C6_amended_eight_passed (c : Config) :
    controllerCtorArgs c =
      [c.vehicle_mass, c.wheel_radius, c.accel_limit, c.decel_limit,
       c.wheel_base, c.steer_ratio, 0.1, c.max_lat_accel, c.max_steer_angle] ∧
    defaultConfig =
      { vehicle_mass := 1736.35, fuel_capacity := 13.5, brake_deadband := 0.1,
        decel_limit := -5, accel_limit := 1, wheel_radius := 0.2413,
        wheel_base := 2.8498, steer_ratio := 14.8, max_lat_accel := 3,
        max_steer_angle := 8 } :=
  ⟨rfl, rfl⟩
